import Mathlib

set_option maxHeartbeats 1000000

namespace RemoteCommit

/- Shallow embedding of the remote-commit repository.
   Sources embedded:
   - src/daemon/src/protocol.rs and src/mobile-core/src/protocol.rs (message types)
   - src/git-actor/src/lib.rs (perform_commit)
   - src/daemon/src/main.rs (PeerManager, event dispatch, pairing and commit handlers)
   - src/mobile-core/src/lib.rs (client identity, prelude, event loops)
   Peer identifiers, multiaddresses and gossipsub payloads are modelled as strings;
   external-library outcomes (filesystem writes, publish results, operator input)
   are passed in as explicit boolean/function parameters. -/

/-- CommitRequest from daemon/src/protocol.rs and mobile-core/src/protocol.rs
(identical in both): four owned text fields. -/
structure CommitRequest where
  repo_path : String
  file_path : String
  new_content : String
  commit_message : String
deriving DecidableEq

/-- CommitResponse from daemon/src/protocol.rs and mobile-core/src/protocol.rs
(identical in both). -/
structure CommitResponse where
  success : Bool
  commit_hash : Option String
  error_message : Option String
deriving DecidableEq

/-- NetworkMessage as defined in daemon/src/protocol.rs: four variants.
mobile-core/src/lib.rs also names these four constructors in its match arms,
so this type is used for every payload both endpoints handle. -/
inductive NetworkMessage where
  | PairRequest
  | PairSuccess
  | Request (request : CommitRequest)
  | Response (response : CommitResponse)
deriving DecidableEq

/-- NetworkMessage as defined in mobile-core/src/protocol.rs: this enum has only
the two variants Request and Response (no PairRequest, no PairSuccess). -/
inductive ClientNetworkMessage where
  | Request (request : CommitRequest)
  | Response (response : CommitResponse)
deriving DecidableEq

/-- Serde discriminant (externally tagged variant name) of a daemon-side message. -/
def networkMessageTag : NetworkMessage → String
  | .PairRequest => "PairRequest"
  | .PairSuccess => "PairSuccess"
  | .Request _ => "Request"
  | .Response _ => "Response"

/-- Serde discriminant of a mobile-core protocol.rs message. -/
def clientNetworkMessageTag : ClientNetworkMessage → String
  | .Request _ => "Request"
  | .Response _ => "Response"

/-- CoreError from mobile-core/src/lib.rs. -/
inductive CoreError where
  | NetworkError (message : String)
  | JsonError (message : String)
  | Timeout
deriving DecidableEq

/- ----- git-actor model ----- -/

/-- Association-list lookup, first binding wins (models map/filesystem lookup). -/
def assocFind {α : Type} : List (String × α) → String → Option α
  | [], _ => none
  | (k2, v) :: rest, k => if k2 = k then some v else assocFind rest k

/-- Association-list overwrite-or-append (models writing a file / index entry). -/
def assocInsert {α : Type} : List (String × α) → String → α → List (String × α)
  | [], k, v => [(k, v)]
  | (k2, v2) :: rest, k, v =>
    if k2 = k then (k, v) :: rest else (k2, v2) :: assocInsert rest k v

/-- Commit object as created by repo.commit in git-actor/src/lib.rs:
author and committer signatures, message, tree (snapshot of the index) and
parent object ids. -/
structure CommitObj where
  author_name : String
  author_email : String
  committer_name : String
  committer_email : String
  message : String
  tree : List (String × String)
  parents : List String
deriving DecidableEq

/-- Repository state touched by perform_commit: the index (staging area),
the HEAD reference and the commit object store keyed by object id. -/
structure GitRepo where
  index : List (String × String)
  head : Option String
  objects : List (String × CommitObj)
deriving DecidableEq

/-- Filesystem plus the set of openable repositories, keyed by repository path. -/
structure World where
  fs : List (String × String)
  repos : List (String × GitRepo)
deriving DecidableEq

/-- Bool test for an absolute path (leading slash, character code 47). -/
def startsWithSlash (s : String) : Bool :=
  match s.data with
  | [] => false
  | c :: _ => c == Char.ofNat 47

/-- Path::join semantics used at git-actor/src/lib.rs line 20: an absolute
right-hand side replaces the base. -/
def pathJoin (base rel : String) : String :=
  if startsWithSlash rel then rel else base ++ "/" ++ rel

/-- perform_commit from git-actor/src/lib.rs. The content hash assigned by
libgit2 to the new commit object is modelled by the parameter hashFn
(git2 renders an Oid as lower-case hexadecimal; this rendering is external
to the repository, so it stays a parameter). Error values are the outermost
anyhow context strings from the source. Steps in source order: open the
repository, overwrite the file at the joined path, stage that path
(libgit2 add_path rejects absolute paths and a path with no file), write the
index as a tree, resolve HEAD and peel it to a commit, build the fixed
signature, create the commit with the head commit as sole parent and advance
HEAD, return the new object id. -/
def perform_commit (hashFn : CommitObj → String) (w : World)
    (repo_path_str file_to_commit_str new_content commit_message : String) :
    Except String (World × String) :=
  match assocFind w.repos repo_path_str with
  | none => .error ("Failed to open repository at " ++ repo_path_str)
  | some repo =>
    let file_path := pathJoin repo_path_str file_to_commit_str
    let fs1 := assocInsert w.fs file_path new_content
    if startsWithSlash file_to_commit_str then
      .error ("Failed to add file to index: " ++ file_to_commit_str)
    else
      match assocFind fs1 file_path with
      | none => .error ("Failed to add file to index: " ++ file_to_commit_str)
      | some content =>
        let index1 := assocInsert repo.index file_to_commit_str content
        match repo.head with
        | none => .error "Failed to get repository HEAD"
        | some head_oid =>
          match assocFind repo.objects head_oid with
          | none => .error "Failed to peel HEAD to a commit"
          | some _parent_commit =>
            let c : CommitObj :=
              ⟨"Emergency Committer", "emergency@example.com",
               "Emergency Committer", "emergency@example.com",
               commit_message, index1, [head_oid]⟩
            let oid := hashFn c
            let repo1 : GitRepo := ⟨index1, some oid, assocInsert repo.objects oid c⟩
            .ok (⟨fs1, assocInsert w.repos repo_path_str repo1⟩, oid)

/-- Lower-case hexadecimal text predicate (digits and a..f only). -/
def isLowerHexChar (c : Char) : Bool :=
  c.isDigit || (decide (Char.ofNat 97 ≤ c) && decide (c ≤ Char.ofNat 102))

/-- String made only of lower-case hexadecimal characters. -/
def IsLowerHexStr (s : String) : Prop :=
  s.toList.all isLowerHexChar = true

/- ----- TrustStore (PeerManager) model, daemon/src/main.rs lines 35-64 ----- -/

/-- HashSet::insert on the trusted-peers set: no duplicate is added. -/
def insertPeer (p : String) (l : List String) : List String :=
  if l.contains p then l else l ++ [p]

/-- JSON text a string is rendered as inside the trusted-peers document. -/
def quoteJson (s : String) : String := "\"" ++ s ++ "\""

/-- serde_json::to_string_pretty of the peer set: pretty-printed JSON array,
one identifier per line. -/
def serializePeers (l : List String) : String :=
  match l with
  | [] => "[]"
  | _ => "[\n  " ++ String.intercalate ",\n  " (l.map quoteJson) ++ "\n]"

/-- PeerManager from daemon/src/main.rs: the in-memory trusted set plus the
current content of trusted_peers.json (none when the file is absent). -/
structure PeerManager where
  trusted_peers : List String
  disk : Option String

/-- PeerManager::is_trusted (daemon/src/main.rs line 53). -/
def is_trusted (pm : PeerManager) (peer_id : String) : Bool :=
  pm.trusted_peers.contains peer_id

/-- PeerManager::add_trusted_peer (daemon/src/main.rs lines 57-63): insert into
the in-memory set, serialize the whole set, then rewrite the file; the
filesystem write outcome is the writeOk parameter. The boolean result is Ok/Err
of the Rust function. Note the insert happens before the write, so the memory
set keeps the new member even when the write fails. -/
def add_trusted_peer (pm : PeerManager) (peer_id : String) (writeOk : Bool) :
    PeerManager × Bool :=
  let peers := insertPeer peer_id pm.trusted_peers
  let json := serializePeers peers
  if writeOk then (⟨peers, some json⟩, true) else (⟨peers, pm.disk⟩, false)

/- ----- Daemon event dispatch, daemon/src/main.rs lines 155-308 ----- -/

/-- Observable side effects of the daemon handlers: perform_commit invocations,
gossipsub.publish calls and the sleeps between pairing publish retries. -/
inductive DaemonEffect where
  | invokedCommit (request : CommitRequest)
  | publishAttempt (msg : NetworkMessage)
  | sleptMs (ms : Nat)
deriving DecidableEq

/-- Retry loop of handle_pair_request (daemon/src/main.rs lines 252-268):
for i in 0..max_retries, publish; on Ok return success; on Err with attempts
left sleep 500 ms and retry; on Err at the last attempt return failure.
pubOk gives the outcome of the publish call at each attempt index; the fuel
argument counts attempts still allowed, starting at max_retries = 5. -/
def retryGo (pubOk : Nat → Bool) : Nat → Nat → List DaemonEffect × Bool
  | _, 0 => ([], false)
  | i, fuel + 1 =>
    if pubOk i then ([.publishAttempt .PairSuccess], true)
    else if fuel = 0 then ([.publishAttempt .PairSuccess], false)
    else
      (.publishAttempt .PairSuccess :: .sleptMs 500 :: (retryGo pubOk (i + 1) fuel).1,
       (retryGo pubOk (i + 1) fuel).2)

/-- handle_pair_request (daemon/src/main.rs lines 230-273) after the operator
prompt: approved is the blocking-task result (operator typed y); on approval
the peer is added via add_trusted_peer and, only if that save succeeded,
PairSuccess is published with the bounded retry loop; on denial nothing
happens. Serialization of PairSuccess (a unit variant) cannot fail and is
modelled as always succeeding. -/
def handle_pair_request (pm : PeerManager) (peer_id : String)
    (approved writeOk : Bool) (pubOk : Nat → Bool) :
    PeerManager × List DaemonEffect :=
  if approved then
    let r := add_trusted_peer pm peer_id writeOk
    if r.2 then (r.1, (retryGo pubOk 0 5).1) else (r.1, [])
  else (pm, [])

/-- handle_commit_request (daemon/src/main.rs lines 276-308): invoke
perform_commit with the request fields, package the outcome as a
CommitResponse (success + hash, or failure + error text), publish it once;
a publish failure is only logged, never retried. -/
def handle_commit_request (hashFn : CommitObj → String) (w : World)
    (request : CommitRequest) :
    World × CommitResponse × List DaemonEffect :=
  match perform_commit hashFn w request.repo_path request.file_path
      request.new_content request.commit_message with
  | .ok (w2, oid) =>
    (w2, ⟨true, some oid, none⟩,
     [.invokedCommit request, .publishAttempt (.Response ⟨true, some oid, none⟩)])
  | .error e =>
    (w, ⟨false, none, some e⟩,
     [.invokedCommit request, .publishAttempt (.Response ⟨false, none, some e⟩)])

/-- Gossipsub message dispatch of the daemon main loop (daemon/src/main.rs
lines 169-196): drop when source is absent; payload is the
serde_json::from_slice outcome (none = malformed, dropped); PairRequest is
handled only in pairing mode; Request is handled only for a trusted source;
PairSuccess, Response and malformed payloads fall to the catch-all arm. -/
def handleMessage (hashFn : CommitObj → String) (is_pairing_mode : Bool)
    (pm : PeerManager) (w : World)
    (src : Option String) (payload : Option NetworkMessage)
    (approved writeOk : Bool) (pubOk : Nat → Bool) :
    PeerManager × World × List DaemonEffect :=
  match src with
  | none => (pm, w, [])
  | some source_peer =>
    match payload with
    | some .PairRequest =>
      if is_pairing_mode then
        let r := handle_pair_request pm source_peer approved writeOk pubOk
        (r.1, w, r.2)
      else (pm, w, [])
    | some (.Request request) =>
      if is_trusted pm source_peer then
        let r := handle_commit_request hashFn w request
        (pm, r.1, r.2.2)
      else (pm, w, [])
    | _ => (pm, w, [])

/-- One inbound gossipsub delivery together with the environment outcomes its
handling consumes (operator approval, trust-file write, publish results). -/
structure Inbound where
  src : Option String
  payload : Option NetworkMessage
  approved : Bool
  writeOk : Bool
  pubOk : Nat → Bool

/-- Daemon event loop run over a finite inbound sequence; the pairing-mode
flag is parsed once at startup and never changes (daemon/src/main.rs line 81). -/
def runDaemon (hashFn : CommitObj → String) (is_pairing_mode : Bool) :
    PeerManager → World → List Inbound → PeerManager × World
  | pm, w, [] => (pm, w)
  | pm, w, m :: rest =>
    runDaemon hashFn is_pairing_mode
      (handleMessage hashFn is_pairing_mode pm w m.src m.payload
        m.approved m.writeOk m.pubOk).1
      (handleMessage hashFn is_pairing_mode pm w m.src m.payload
        m.approved m.writeOk m.pubOk).2.1
      rest

/- ----- Client role, mobile-core/src/lib.rs ----- -/

/-- Swarm events the client loops react to (mobile-core/src/lib.rs lines
131-162 and 234-261). subscribed carries the outcome of serializing the
outbound envelope and of the publish call; message carries the gossipsub
source and the serde decode outcome of the payload (none = not decodable). -/
inductive ClientEvent where
  | connectionEstablished
  | subscribed (encodeOk : Bool) (publishOk : Bool)
  | message (source : Option String) (payload : Option NetworkMessage)
  | other

/-- One iteration of the emergency_commit_async event loop body
(mobile-core/src/lib.rs lines 133-156): state is the published_request flag;
the second component is some result when the iteration returns from the call.
On subscribed with the request not yet published, a serialization failure
returns Err(JsonError) and a successful publish sets the flag; on message,
the handler never looks at the source field and resolves on any payload that
decodes to a Response, using unwrap_or_default for the missing field. -/
def commitStep (published_request : Bool) :
    ClientEvent → Bool × Option (Except CoreError String)
  | .connectionEstablished => (published_request, none)
  | .subscribed encodeOk publishOk =>
    if published_request then (published_request, none)
    else if encodeOk = false then
      (published_request, some (.error (.JsonError "serialization failed")))
    else if publishOk then (true, none)
    else (published_request, none)
  | .message _source payload =>
    match payload with
    | some (.Response response) =>
      (published_request,
       some (if response.success then .ok (response.commit_hash.getD "")
             else .error (.NetworkError (response.error_message.getD ""))))
    | _ => (published_request, none)
  | .other => (published_request, none)

/-- One iteration of the pair_async event loop body (mobile-core/src/lib.rs
lines 236-256): serialization of PairRequest is unwrapped in the source (it
cannot fail for a unit variant) so the encodeOk flag is ignored; the message
handler never looks at the source field and resolves Ok on any payload that
decodes to PairSuccess. -/
def pairStep (published_request : Bool) :
    ClientEvent → Bool × Option (Except CoreError Unit)
  | .connectionEstablished => (published_request, none)
  | .subscribed _encodeOk publishOk =>
    if published_request then (published_request, none)
    else if publishOk then (true, none)
    else (published_request, none)
  | .message _source payload =>
    match payload with
    | some .PairSuccess => (published_request, some (.ok ()))
    | _ => (published_request, none)
  | .other => (published_request, none)

/-- Timed run of the emergency_commit_async loop. Each iteration of the Rust
loop constructs a fresh tokio::time::sleep(20 s) inside select! (mobile-core/
src/lib.rs lines 131-162), so the timer restarts at every iteration: an event
at time t is received only if it arrives before now + 20, where now is the
time the current iteration started; otherwise the sleep branch returns
Err(Timeout) at now + 20. The result is paired with the wall-clock time the
call returns. -/
def commitLoop (published_request : Bool) (now : Nat) :
    List (Nat × ClientEvent) → Except CoreError String × Nat
  | [] => (.error .Timeout, now + 20)
  | (t, e) :: rest =>
    if t < now + 20 then
      match commitStep published_request e with
      | (_, some r) => (r, t)
      | (pb2, none) => commitLoop pb2 t rest
    else (.error .Timeout, now + 20)

/-- Timed run of the pair_async loop; same select-inside-loop structure as
commitLoop (mobile-core/src/lib.rs lines 234-261). -/
def pairLoop (published_request : Bool) (now : Nat) :
    List (Nat × ClientEvent) → Except CoreError Unit × Nat
  | [] => (.error .Timeout, now + 20)
  | (t, e) :: rest =>
    if t < now + 20 then
      match pairStep published_request e with
      | (_, some r) => (r, t)
      | (pb2, none) => pairLoop pb2 t rest
    else (.error .Timeout, now + 20)

/-- Sequence of n non-terminal events spaced 19 time units apart, each inside
the 20-unit window of its predecessor. -/
def quietEvents : Nat → Nat → List (Nat × ClientEvent)
  | _, 0 => []
  | now, n + 1 => (now + 19, .connectionEstablished) :: quietEvents (now + 19) n

/- ----- Client call prelude, mobile-core/src/lib.rs lines 66-129 / 179-232 ----- -/

/-- Externally visible I/O steps of the prelude of a client call: reading or
creating client_identity.key, and the dial of the daemon address. -/
inductive ClientIOStep where
  | fsReadKey
  | fsWriteKey
  | dialAttempt
deriving DecidableEq

/-- get_or_create_identity (mobile-core/src/lib.rs lines 45-63): when the key
file exists it is read (readOk) and decoded (decodeOk); otherwise a fresh
keypair is generated, encoded (encodeOk) and written (writeOk). Every failure
is a NetworkError. The trace records the filesystem accesses performed. -/
def get_or_create_identity (keyExists readOk decodeOk encodeOk writeOk : Bool) :
    Except CoreError Unit × List ClientIOStep :=
  if keyExists then
    if readOk then
      if decodeOk then (.ok (), [.fsReadKey])
      else (.error (.NetworkError "Failed to decode key file"), [.fsReadKey])
    else (.error (.NetworkError "Failed to read key file"), [.fsReadKey])
  else
    if encodeOk then
      if writeOk then (.ok (), [.fsWriteKey])
      else (.error (.NetworkError "Failed to write key file"), [.fsWriteKey])
    else (.error (.NetworkError "Failed to encode key file"), [])

/-- Shared prelude of emergency_commit_async (mobile-core/src/lib.rs lines
66-129) and pair_async (lines 179-232), whose bodies are textually identical
here: load or create the identity, build transport and swarm, subscribe, then
parse the supplied daemon address (addrParses is the Multiaddr parse outcome)
and dial it. Ok means the call reaches the event loop. The identity-file
access happens before the address is parsed, exactly as in the source. -/
def clientCallPrelude
    (keyExists readOk decodeOk encodeOk writeOk addrParses dialOk : Bool) :
    Except CoreError Unit × List ClientIOStep :=
  match get_or_create_identity keyExists readOk decodeOk encodeOk writeOk with
  | (.error e, tr) => (.error e, tr)
  | (.ok _, tr) =>
    if addrParses then
      if dialOk then (.ok (), tr ++ [.dialAttempt])
      else (.error (.NetworkError "Failed to dial daemon"), tr ++ [.dialAttempt])
    else (.error (.NetworkError "Invalid daemon address"), tr)

/- ----- Effect counters and the spec-side retry count ----- -/

/-- Number of gossipsub.publish calls in an effect trace. -/
def countAttempts (l : List DaemonEffect) : Nat :=
  l.countP fun e => match e with | .publishAttempt _ => true | _ => false

/-- Number of 500 ms sleeps in an effect trace. -/
def countSleeps (l : List DaemonEffect) : Nat :=
  l.countP fun e => match e with | .sleptMs 500 => true | _ => false

/-- Modelled from the spec (section 4.4): number of publish attempts the
pairing retry should make, namely the index of the first successful attempt
plus one, capped at 5 when every attempt fails. -/
def specAttemptCount (pubOk : Nat → Bool) : Nat :=
  if pubOk 0 then 1 else if pubOk 1 then 2 else if pubOk 2 then 3
  else if pubOk 3 then 4 else 5

/- ----- Helper lemmas ----- -/

theorem assocFind_insert_self {α : Type} (l : List (String × α)) (k : String) (v : α) :
    assocFind (assocInsert l k v) k = some v := by
  induction l with
  | nil => simp [assocInsert, assocFind]
  | cons hd tl ih =>
    obtain ⟨k2, v2⟩ := hd
    by_cases h : k2 = k <;> simp [assocInsert, assocFind, h, ih]

theorem retryGo_effect_shape (pubOk : Nat → Bool) :
    ∀ fuel i e, e ∈ (retryGo pubOk i fuel).1 →
      e = DaemonEffect.publishAttempt .PairSuccess ∨ e = DaemonEffect.sleptMs 500 := by
  intro fuel
  induction fuel with
  | zero => intro i e h; simp [retryGo] at h
  | succ f ih =>
    intro i e h
    by_cases h0 : pubOk i
    · simp [retryGo, h0] at h; exact Or.inl h
    · by_cases hf : f = 0
      · simp [retryGo, h0, hf] at h; exact Or.inl h
      · simp [retryGo, h0, hf] at h
        rcases h with h | h | h
        · exact Or.inl h
        · exact Or.inr h
        · exact ih (i + 1) e h

theorem handleMessage_standard_fst (hashFn : CommitObj → String)
    (pm : PeerManager) (w : World) (src : Option String)
    (payload : Option NetworkMessage) (approved writeOk : Bool)
    (pubOk : Nat → Bool) :
    (handleMessage hashFn false pm w src payload approved writeOk pubOk).1 = pm := by
  cases src with
  | none => rfl
  | some p =>
    cases payload with
    | none => rfl
    | some m =>
      cases m with
      | PairRequest => rfl
      | PairSuccess => rfl
      | Request request => simp only [handleMessage]; split <;> rfl
      | Response response => rfl

/- ----- Concrete inputs used by witnesses ----- -/

/-- Fixed hash function used in concrete runs. -/
def hashFn0 : CommitObj → String := fun _ => "0abc"

/-- Pre-existing head commit of the concrete test repository. -/
def commit0 : CommitObj := ⟨"a", "a", "a", "a", "init", [], []⟩

/-- Concrete repository with one commit at HEAD. -/
def repoStart : GitRepo := ⟨[], some "base", [("base", commit0)]⟩

/-- Concrete world holding the test repository at /r. -/
def worldStart : World := ⟨[], [("/r", repoStart)]⟩

/-- Commit object perform_commit creates in the concrete run. -/
def commitNew : CommitObj :=
  ⟨"Emergency Committer", "emergency@example.com",
   "Emergency Committer", "emergency@example.com",
   "m", [("f.txt", "hi")], ["base"]⟩

/-- Repository state after the concrete perform_commit run. -/
def repoDone : GitRepo :=
  ⟨[("f.txt", "hi")], some "0abc", [("base", commit0), ("0abc", commitNew)]⟩

/-- World state after the concrete perform_commit run. -/
def worldDone : World := ⟨[("/r/f.txt", "hi")], [("/r", repoDone)]⟩

/-- Concrete commit request. -/
def req0 : CommitRequest := ⟨"/r", "f.txt", "hi", "m"⟩

/-- World with no repository at all (perform_commit fails to open). -/
def worldEmpty : World := ⟨[], []⟩

/-- Peer manager that already trusts peerA. -/
def pmA : PeerManager := ⟨["peerA"], none⟩

/-- Publish outcome function that always succeeds. -/
def pubOkAll : Nat → Bool := fun _ => true

theorem insertPeer_contains (p : String) (l : List String) :
    (insertPeer p l).contains p = true := by
  unfold insertPeer
  cases h : l.contains p with
  | true => simp [h]; exact List.mem_of_elem_eq_true h
  | false => simp [h]

theorem handle_pair_request_no_commit (pm : PeerManager) (p : String)
    (approved writeOk : Bool) (pubOk : Nat → Bool) (request : CommitRequest) :
    DaemonEffect.invokedCommit request ∉
      (handle_pair_request pm p approved writeOk pubOk).2 := by
  intro h
  unfold handle_pair_request at h
  by_cases ha : approved
  · simp only [ha, if_true] at h
    by_cases hw : (add_trusted_peer pm p writeOk).2
    · simp only [hw, if_true] at h
      rcases retryGo_effect_shape pubOk 5 0 _ h with h2 | h2 <;> simp at h2
    · simp only [hw, if_false] at h
      simp at h
  · simp [ha] at h

/- ----- Claim theorems ----- -/

/-- Claim C1: a daemon started without the pair flag never inserts into the
TrustStore over any run of inbound messages; and in either mode, an
invocation of perform_commit during the dispatch of one message implies the
message had a source peer that was trusted at the moment of dispatch. -/
theorem C1_trust_gating :
    (∀ hashFn pm w msgs, (runDaemon hashFn false pm w msgs).1 = pm) ∧
    (∀ hashFn is_pairing_mode pm w src payload approved writeOk pubOk request,
       DaemonEffect.invokedCommit request ∈
         (handleMessage hashFn is_pairing_mode pm w src payload
           approved writeOk pubOk).2.2 →
       ∃ p, src = some p ∧ is_trusted pm p = true) := by
  constructor
  · intro hashFn pm w msgs
    induction msgs generalizing pm w with
    | nil => rfl
    | cons m rest ih =>
      simp only [runDaemon]
      rw [handleMessage_standard_fst]
      exact ih pm _
  · intro hashFn ipm pm w src payload approved writeOk pubOk request hmem
    cases src with
    | none => simp [handleMessage] at hmem
    | some p =>
      cases payload with
      | none => simp [handleMessage] at hmem
      | some m =>
        cases m with
        | PairRequest =>
          by_cases hp : ipm
          · simp only [handleMessage, hp, if_true] at hmem
            exact absurd hmem (handle_pair_request_no_commit pm p approved writeOk pubOk request)
          · simp [handleMessage, hp] at hmem
        | PairSuccess => simp [handleMessage] at hmem
        | Request r =>
          by_cases ht : is_trusted pm p
          · exact ⟨p, rfl, ht⟩
          · simp [handleMessage, ht] at hmem
        | Response r => simp [handleMessage] at hmem

/-- Witness for C1: a trusted source on a Request does dispatch, and the
theorem then yields the trusted source peer. -/
theorem C1_trust_gating_witness :
    ∃ p, (some "peerA" : Option String) = some p ∧ is_trusted pmA p = true :=
  C1_trust_gating.2 hashFn0 true pmA worldStart (some "peerA")
    (some (.Request req0)) true true pubOkAll req0 (by decide)

/-- Claim C2 counterexample: a message with source = none whose payload
decodes to a successful Response resolves the client commit operation
(and a source-free PairSuccess resolves the pair operation), so the
client-side half of the claim is false on the code. -/
theorem C2_anonymous_cex :
    commitStep false (.message none (some (.Response ⟨true, some "h", none⟩))) =
      (false, some (.ok "h")) ∧
    pairStep false (.message none (some .PairSuccess)) = (false, some (.ok ())) :=
  ⟨rfl, rfl⟩

/-- Claim C2 (amended): the daemon drops a source-free message with no state
change and no dispatch; the client never examines the source field — message
handling is identical for any two source values (so an anonymous decodable
reply still resolves the pending operation) and never changes the publish
flag. -/
theorem C2_anonymous_amended :
    (∀ hashFn is_pairing_mode pm w payload approved writeOk pubOk,
       handleMessage hashFn is_pairing_mode pm w none payload
         approved writeOk pubOk = (pm, w, [])) ∧
    (∀ pb src payload,
       (commitStep pb (.message src payload)).1 = pb ∧
       (pairStep pb (.message src payload)).1 = pb) ∧
    (∀ pb payload s1 s2,
       commitStep pb (.message s1 payload) = commitStep pb (.message s2 payload) ∧
       pairStep pb (.message s1 payload) = pairStep pb (.message s2 payload)) := by
  refine ⟨fun _ _ _ _ _ _ _ _ => rfl, ?_, fun _ _ _ _ => ⟨rfl, rfl⟩⟩
  intro pb src payload
  constructor <;>
    (cases payload with
     | none => rfl
     | some m => cases m <;> rfl)

/-- Claim C3: whenever perform_commit returns Ok, the file at the joined path
holds exactly the new content, the repository now holds a commit under the
returned id with the fixed author and committer identity, the supplied
message and the previous HEAD as sole parent, HEAD has advanced to it, and
the returned text is the content hash of that commit (lower-case hexadecimal
whenever the hash rendering is). -/
theorem C3_perform_commit_ok :
    ∀ hashFn w repo_path file_path new_content message repo0 head0 w2 h,
      assocFind w.repos repo_path = some repo0 →
      repo0.head = some head0 →
      perform_commit hashFn w repo_path file_path new_content message = .ok (w2, h) →
      ∃ repo1 c,
        assocFind w2.repos repo_path = some repo1 ∧
        assocFind w2.fs (pathJoin repo_path file_path) = some new_content ∧
        assocFind repo1.objects h = some c ∧
        c.author_name = "Emergency Committer" ∧
        c.author_email = "emergency@example.com" ∧
        c.committer_name = "Emergency Committer" ∧
        c.committer_email = "emergency@example.com" ∧
        c.message = message ∧
        c.parents = [head0] ∧
        repo1.head = some h ∧
        h = hashFn c ∧
        ((∀ x, IsLowerHexStr (hashFn x)) → IsLowerHexStr h) := by
  intro hashFn w rp fp nc msg repo0 head0 w2 h hrepo hhead hok
  unfold perform_commit at hok
  rw [hrepo] at hok
  simp only [hhead] at hok
  rw [assocFind_insert_self] at hok
  by_cases habs : startsWithSlash fp
  · simp [habs] at hok
  · simp only [habs, if_false, Bool.false_eq_true] at hok
    cases hpar : assocFind repo0.objects head0 with
    | none => simp [hpar] at hok
    | some parent =>
      simp only [hpar, Except.ok.injEq, Prod.mk.injEq] at hok
      obtain ⟨hw2, hh⟩ := hok
      subst hw2
      subst hh
      refine ⟨_, _, assocFind_insert_self _ _ _, assocFind_insert_self _ _ _,
        assocFind_insert_self _ _ _, rfl, rfl, rfl, rfl, rfl, rfl, rfl, rfl,
        fun hhex => hhex _⟩

/-- Witness for C3 at a concrete repository with one parent commit. -/
theorem C3_perform_commit_ok_witness :
    ∃ repo1 c,
      assocFind worldDone.repos "/r" = some repo1 ∧
      assocFind worldDone.fs (pathJoin "/r" "f.txt") = some "hi" ∧
      assocFind repo1.objects "0abc" = some c ∧
      c.author_name = "Emergency Committer" ∧
      c.author_email = "emergency@example.com" ∧
      c.committer_name = "Emergency Committer" ∧
      c.committer_email = "emergency@example.com" ∧
      c.message = "m" ∧
      c.parents = ["base"] ∧
      repo1.head = some "0abc" ∧
      "0abc" = hashFn0 c ∧
      ((∀ x, IsLowerHexStr (hashFn0 x)) → IsLowerHexStr "0abc") :=
  C3_perform_commit_ok hashFn0 worldStart "/r" "f.txt" "hi" "m" repoStart "base"
    worldDone "0abc" (by rfl) (by rfl) (by rfl)

/-- Claim C4: the Response the daemon packages for a commit request, when
decoded by the client, yields Ok with exactly the hash perform_commit
returned when it succeeded, and Err(NetworkError) carrying exactly the
error text when it failed. -/
theorem C4_response_roundtrip :
    ∀ hashFn w request pb src w2 h e,
      (perform_commit hashFn w request.repo_path request.file_path
          request.new_content request.commit_message = .ok (w2, h) →
        commitStep pb (.message src
            (some (.Response (handle_commit_request hashFn w request).2.1))) =
          (pb, some (.ok h))) ∧
      (perform_commit hashFn w request.repo_path request.file_path
          request.new_content request.commit_message = .error e →
        commitStep pb (.message src
            (some (.Response (handle_commit_request hashFn w request).2.1))) =
          (pb, some (.error (.NetworkError e)))) := by
  intro hashFn w req pb src w2 h e
  constructor
  · intro hok
    simp [handle_commit_request, hok, commitStep]
  · intro herr
    simp [handle_commit_request, herr, commitStep]

/-- Witness for C4: one concrete successful commit and one concrete failed
commit, each round-tripped through the daemon Response into the client. -/
theorem C4_response_roundtrip_witness :
    commitStep false (.message (some "d")
        (some (.Response (handle_commit_request hashFn0 worldStart req0).2.1))) =
      (false, some (.ok "0abc")) ∧
    commitStep false (.message (some "d")
        (some (.Response (handle_commit_request hashFn0 worldEmpty req0).2.1))) =
      (false, some (.error (.NetworkError "Failed to open repository at /r"))) :=
  ⟨(C4_response_roundtrip hashFn0 worldStart req0 false (some "d")
      worldDone "0abc" "x").1 (by rfl),
   (C4_response_roundtrip hashFn0 worldEmpty req0 false (some "d")
      worldDone "0abc" "Failed to open repository at /r").2 (by rfl)⟩

/-- Claim C5 counterexample: with non-terminal events at times 10 and 25 and
the terminal Response only at time 39, no terminal reply arrives within 20
time units of entry, yet the call returns Ok at time 39 instead of
Err(Timeout): the 20-second sleep is recreated at every loop iteration. -/
theorem C5_deadline_cex :
    commitLoop false 0
      [(10, .connectionEstablished), (25, .connectionEstablished),
       (39, .message (some "d") (some (.Response ⟨true, some "h", none⟩)))] =
      (.ok "h", 39) := by rfl

/-- Claim C5 (amended): the deadline is 20 time units of inactivity, restarted
at each loop iteration, not 20 units from entry: a run of n non-terminal
events each arriving 19 units after the previous one times out only at
19 n + 20 units after entry, a bound that grows without limit with n (the
n = 0 case is the 20-unit timeout of an event-free run). -/
theorem C5_deadline_amended :
    ∀ n pb now,
      commitLoop pb now (quietEvents now n) = (.error .Timeout, now + 19 * n + 20) ∧
      pairLoop pb now (quietEvents now n) = (.error .Timeout, now + 19 * n + 20) := by
  intro n
  induction n with
  | zero => intro pb now; exact ⟨rfl, rfl⟩
  | succ m ih =>
    intro pb now
    have h19 : now + 19 < now + 20 := by omega
    constructor
    · have step : commitLoop pb now (quietEvents now (m + 1)) =
          commitLoop pb (now + 19) (quietEvents (now + 19) m) := by
        simp [quietEvents, commitLoop, commitStep, h19]
      rw [step, (ih pb (now + 19)).1,
        show now + 19 + 19 * m + 20 = now + 19 * (m + 1) + 20 by omega]
    · have step : pairLoop pb now (quietEvents now (m + 1)) =
          pairLoop pb (now + 19) (quietEvents (now + 19) m) := by
        simp [quietEvents, pairLoop, pairStep, h19]
      rw [step, (ih pb (now + 19)).2,
        show now + 19 + 19 * m + 20 = now + 19 * (m + 1) + 20 by omega]

/-- Claim C6: the daemon-side sum has the four discriminants, but every value
of the NetworkMessage enum defined in mobile-core/src/protocol.rs carries the
discriminant Request or Response — that enum has no PairRequest and no
PairSuccess variant, so the client-side sum cannot represent the pairing
messages (mobile-core/src/lib.rs nevertheless names those two constructors,
which its own protocol module does not define). -/
theorem C6_two_variant_client_enum :
    networkMessageTag .PairRequest = "PairRequest" ∧
    networkMessageTag .PairSuccess = "PairSuccess" ∧
    (∀ m : ClientNetworkMessage,
       clientNetworkMessageTag m = "Request" ∨ clientNetworkMessageTag m = "Response") ∧
    (∀ m : ClientNetworkMessage,
       (clientNetworkMessageTag m == "PairRequest") = false ∧
       (clientNetworkMessageTag m == "PairSuccess") = false) := by
  refine ⟨rfl, rfl, ?_, ?_⟩
  · intro m
    cases m with
    | Request r => exact Or.inl rfl
    | Response r => exact Or.inr rfl
  · intro m
    cases m <;> exact ⟨rfl, rfl⟩

/-- Claim C7 counterexample: adding peerA with a failing file write returns
Err, yet peerA is already visible to is_trusted in memory while the on-disk
document is unchanged (still absent): the insert happens before the write. -/
theorem C7_write_then_expose_cex :
    (add_trusted_peer ⟨[], none⟩ "peerA" false).2 = false ∧
    is_trusted (add_trusted_peer ⟨[], none⟩ "peerA" false).1 "peerA" = true ∧
    (add_trusted_peer ⟨[], none⟩ "peerA" false).1.disk = none :=
  ⟨rfl, by decide, rfl⟩

/-- Claim C7 (amended): add inserts into the in-memory set first and then
rewrites the file; after a successful rewrite the disk equals the serialized
in-memory set, while a failed rewrite returns Err but leaves the new member
exposed in memory with the disk unchanged. -/
theorem C7_write_then_expose_amended :
    ∀ pm peer_id writeOk,
      is_trusted (add_trusted_peer pm peer_id writeOk).1 peer_id = true ∧
      (add_trusted_peer pm peer_id writeOk).1.trusted_peers =
        insertPeer peer_id pm.trusted_peers ∧
      (writeOk = true →
        (add_trusted_peer pm peer_id writeOk).2 = true ∧
        (add_trusted_peer pm peer_id writeOk).1.disk =
          some (serializePeers (insertPeer peer_id pm.trusted_peers))) ∧
      (writeOk = false →
        (add_trusted_peer pm peer_id writeOk).2 = false ∧
        (add_trusted_peer pm peer_id writeOk).1.disk = pm.disk) := by
  intro pm p wOk
  cases wOk <;>
    exact ⟨insertPeer_contains p pm.trusted_peers, rfl,
      fun h => by simp_all [add_trusted_peer], fun h => by simp_all [add_trusted_peer]⟩

/-- Witness for C7 (amended) at a concrete successful and failed write. -/
theorem C7_write_then_expose_amended_witness :
    ((add_trusted_peer ⟨[], none⟩ "peerA" true).2 = true ∧
      (add_trusted_peer ⟨[], none⟩ "peerA" true).1.disk =
        some (serializePeers (insertPeer "peerA" []))) ∧
    ((add_trusted_peer ⟨[], none⟩ "peerA" false).2 = false ∧
      (add_trusted_peer ⟨[], none⟩ "peerA" false).1.disk = none) :=
  ⟨(C7_write_then_expose_amended ⟨[], none⟩ "peerA" true).2.2.1 rfl,
   (C7_write_then_expose_amended ⟨[], none⟩ "peerA" false).2.2.2 rfl⟩

/-- Claim C8: the pairing-success publish makes first-success-index + 1
attempts, capped at 5, with one 500 ms sleep between consecutive attempts and
nothing else in the trace, succeeding exactly when some of the five attempts
succeeds; the commit Response publish is a single attempt with no sleep. -/
theorem C8_publish_retry :
    ∀ pubOk hashFn w request,
      countAttempts (retryGo pubOk 0 5).1 = specAttemptCount pubOk ∧
      countSleeps (retryGo pubOk 0 5).1 = specAttemptCount pubOk - 1 ∧
      (retryGo pubOk 0 5).1.length =
        specAttemptCount pubOk + (specAttemptCount pubOk - 1) ∧
      (retryGo pubOk 0 5).2 = (pubOk 0 || pubOk 1 || pubOk 2 || pubOk 3 || pubOk 4) ∧
      countAttempts (handle_commit_request hashFn w request).2.2 = 1 ∧
      countSleeps (handle_commit_request hashFn w request).2.2 = 0 := by
  intro pubOk hashFn w request
  have hcommit :
      countAttempts (handle_commit_request hashFn w request).2.2 = 1 ∧
      countSleeps (handle_commit_request hashFn w request).2.2 = 0 := by
    cases hpc : perform_commit hashFn w request.repo_path request.file_path
        request.new_content request.commit_message with
    | ok p =>
      obtain ⟨w2, oid⟩ := p
      simp [handle_commit_request, hpc, countAttempts, countSleeps]
    | error e =>
      simp [handle_commit_request, hpc, countAttempts, countSleeps]
  refine ⟨?_, ?_, ?_, ?_, hcommit.1, hcommit.2⟩ <;>
    cases h0 : pubOk 0 <;> cases h1 : pubOk 1 <;> cases h2 : pubOk 2 <;>
      cases h3 : pubOk 3 <;> cases h4 : pubOk 4 <;>
      simp [retryGo, countAttempts, countSleeps, specAttemptCount, h0, h1, h2, h3, h4]

/-- Claim C9 counterexample: with no key file present and an invalid daemon
address, the call does fail with NetworkError, but only after writing
client_identity.key — filesystem I/O precedes the address parse. -/
theorem C9_failfast_cex :
    clientCallPrelude false true true true true false true =
      (.error (.NetworkError "Invalid daemon address"), [.fsWriteKey]) := by rfl

/-- Claim C9 (amended): an unparsable daemon address always makes the call
fail with Err(NetworkError) before any network I/O — no dial is ever
attempted — though the client identity file may already have been read or
written. -/
theorem C9_failfast_amended :
    ∀ keyExists readOk decodeOk encodeOk writeOk dialOk,
      (∃ m, (clientCallPrelude keyExists readOk decodeOk encodeOk writeOk
          false dialOk).1 = .error (.NetworkError m)) ∧
      ((clientCallPrelude keyExists readOk decodeOk encodeOk writeOk
          false dialOk).2.contains .dialAttempt) = false := by
  intro ke ro dk ek wk dl
  cases ke <;> cases ro <;> cases dk <;> cases ek <;> cases wk <;>
    exact ⟨⟨_, rfl⟩, rfl⟩

/-- Claim C10: a Response with success = true and no commit_hash resolves the
commit call to Ok of the empty string, and a Response with success = false
and no error_message resolves it to Err(NetworkError) with an empty message
(unwrap_or_default on both optional fields). -/
theorem C10_missing_field_defaults :
    ∀ pb src commit_hash error_message,
      commitStep pb (.message src
          (some (.Response ⟨true, none, error_message⟩))) =
        (pb, some (.ok "")) ∧
      commitStep pb (.message src
          (some (.Response ⟨false, commit_hash, none⟩))) =
        (pb, some (.error (.NetworkError ""))) := by
  intro pb src ch em
  exact ⟨rfl, rfl⟩

end RemoteCommit
